import Mathlib

/-!
Verification of the fee-sponsored transaction exchange client in
`src/main.ts` (faas-full-example).

The program is a sequential client with two external collaborators:
a Bitcoin Core node (reached through the `rpc-bitcoin` RPC client) and
the Frictionless FaaS sponsor service.  We embed the program shallowly:
each collaborator is an environment record of pure functions, every
remote call is recorded in an event trace, and each `async` function of
the source becomes a Lean function from the environments to a pair of a
result (`Except Err _`) and the trace of calls it performed, in order.
A collaborator operation returning `none` models the corresponding
promise rejecting (network failure / rejection by the service); the
fixed error kind attached to each call site follows the spec's error
taxonomy (§7).  Amounts are only moved around by the program, never
computed with, so they are modelled by `Nat`.
-/

namespace FaasExample

/-- `OUTPUT_ADDRESS` constant of `src/main.ts` (line 21); the concrete
string is the placeholder that appears in the source. -/
def OUTPUT_ADDRESS : String := "???"

/-- `FAAS_URL` constant of `src/main.ts` (line 26). -/
def FAAS_URL : String := "https://graphql.frictionless.money/"

/-- `FAAS_KEY` constant of `src/main.ts` (line 28). -/
def FAAS_KEY : String := "???"

/-- Modelled from the spec: `ASSET_BTC` is an opaque ledger-asset
identifier imported from the external `@frictionless-money/faas`
library (not under `src/`); only its identity matters here. -/
def ASSET_BTC : String := "BTC"

/-- The sighash policy strings used by the source: `"ALL"` and
`"ALL|ANYONECANPAY"` (the `SigHashType` union of `rpc-bitcoin`). -/
inductive SigHashType where
  | ALL : SigHashType
  | ALL_ANYONECANPAY : SigHashType
deriving DecidableEq, Repr

/-- One unspent coin as returned by the node's `listunspent`
(the fields the source reads: `txid`, `vout`, `amount`). -/
structure Coin where
  txid : String
  vout : Nat
  amount : Nat
deriving DecidableEq, Repr

/-- `TransactionInput` of `rpc-bitcoin` as used by `getPSBT`. -/
structure TransactionInput where
  txid : String
  vout : Nat
deriving DecidableEq, Repr

/-- `TransactionOutput` of `rpc-bitcoin` as used by `getPSBT`: a single
address/amount pair (`{[OUTPUT_ADDRESS]: amount}` in the source). -/
structure TransactionOutput where
  address : String
  amount : Nat
deriving DecidableEq, Repr

/-- The argument record of the node's `createpsbt` call
(`src/main.ts` lines 72-77). -/
structure CreatePsbtArgs where
  inputs : List TransactionInput
  outputs : List TransactionOutput
  locktime : Nat
  replaceable : Bool
deriving DecidableEq, Repr

/-- A sponsor exchange record (`PSBT` of the faas library; spec §6:
records carry asset, id, state, blob, txid).  The blob field is named
`psbt` as in the source (`feeIncludedPSBT.psbt`). -/
structure PSBT where
  asset : String
  id : String
  state : String
  psbt : String
  txid : String
deriving DecidableEq, Repr

/-- A non-interactive sponsor exchange record (`PSBTNI` of the faas
library); same field shape as `PSBT`. -/
structure PSBTNI where
  asset : String
  id : String
  state : String
  psbt : String
  txid : String
deriving DecidableEq, Repr

/-- Error kinds of the run, named per spec §7.  In the source every
failure is a thrown/rejected `Error` caught by the nearest handler;
the embedding labels each failure site with the spec's kind for it. -/
inductive Err where
  | noFundsAvailable : Err
  | invalidMode : Err
  | tamperDetected : Err
  | signingFailed : Err
  | exchangeRejected : Err
  | networkFailure : Err
deriving DecidableEq, Repr

/-- `deepStrictEqual` of `node:assert/strict` restricted to the record
types it is applied to in the source: a deep structural equality check
that throws (here: returns `Err.tamperDetected`, the spec's name for
this failure) when the two values differ in any field, and succeeds
otherwise. -/
def deepStrictEqual {α : Type} [DecidableEq α] (actual expected : α) : Except Err Unit :=
  if actual = expected then .ok () else .error .tamperDetected

/-- Trace events: one constructor per remote call site of the program
(plus the `deepStrictEqual` checks and the construction of the `Faas`
client).  The two `faas.readPSBT` call sites of the interactive flow
(lines 134 and 150) and the two equality checks (lines 137 and 153)
get distinct constructors so the trace records which protocol step a
call belongs to. -/
inductive Event where
  | listunspentCall : Event
  | createpsbtCall : CreatePsbtArgs → Event
  | walletprocesspsbtCall : String → Bool → SigHashType → Event
  | faasConstructed : String → String → Event
  | readApiKeyCall : Event
  | readCreditCall : Event
  | readFeeCall : Event
  | readRateCall : Event
  | createPSBTCall : String → String → Event
  | readPSBTCall : String → String → Event
  | equalityCheck1 : PSBT → PSBT → Event
  | updatePSBTCall : String → String → String → Event
  | readPSBT2Call : String → String → Event
  | equalityCheck2 : PSBT → PSBT → Event
  | createPSBTNICall : String → String → Event
  | readPSBTNICall : String → String → Event
  | equalityCheckNI : PSBTNI → PSBTNI → Event
  | readPSBTsCall : Event
  | readPSBTNIsCall : Event
deriving DecidableEq, Repr

/-- The Bitcoin Core node environment: the behaviour of the wallet
collaborator.  `listunspent` is the coin list for the fixed filter the
source always passes (`minconf` 0, the configured address and wallet
label); `createpsbt` deterministically serializes a candidate;
`walletprocesspsbt` returns the processed blob, or `none` when the
call fails. -/
structure NodeEnv where
  listunspent : List Coin
  createpsbt : CreatePsbtArgs → String
  walletprocesspsbt : String → Bool → SigHashType → Option String

/-- The Frictionless FaaS sponsor environment: the behaviour of each
remote operation the source invokes.  `none` models rejection or
network failure of that call. -/
structure FaasEnv where
  createPSBT : String → String → Option PSBT
  readPSBT : String → String → Option PSBT
  updatePSBT : String → String → String → Option PSBT
  createPSBTNI : String → String → Option PSBTNI
  readPSBTNI : String → String → Option PSBTNI
  readApiKey : Option String
  readCredit : Option Nat
  readFee : Option Nat
  readRate : Option Nat
  readPSBTs : Option (List PSBT)
  readPSBTNIs : Option (List PSBTNI)

/-- The `createpsbt` argument record that `getPSBT` builds from the
first unspent coin (`src/main.ts` lines 59-77): one input naming the
coin, one output paying the coin's full amount to `OUTPUT_ADDRESS`,
locktime 0, replaceable. -/
def firstCoinArgs (u : Coin) : CreatePsbtArgs :=
  ⟨[⟨u.txid, u.vout⟩], [⟨OUTPUT_ADDRESS, u.amount⟩], 0, true⟩

/-- `getPSBT` (`src/main.ts` lines 47-89): select the first unspent
coin, build a single-input single-output candidate sending the full
amount to `OUTPUT_ADDRESS` with locktime 0 and the replaceable flag,
then hand it to `walletprocesspsbt` with the requested sign flag and
sighash type.  On an empty coin list the source dereferences
`unspentUTXOs[0]` and throws; the spec names this failure
`NoFundsAvailable`. -/
def getPSBT (node : NodeEnv) (sign : Bool) (sighashtype : SigHashType) :
    Except Err String × List Event :=
  match node.listunspent with
  | [] => (.error .noFundsAvailable, [.listunspentCall])
  | u :: _ =>
      let args : CreatePsbtArgs := firstCoinArgs u
      let customerPSBT : String := node.createpsbt args
      match node.walletprocesspsbt customerPSBT sign sighashtype with
      | none =>
          (.error .signingFailed,
            [.listunspentCall, .createpsbtCall args,
             .walletprocesspsbtCall customerPSBT sign sighashtype])
      | some processed =>
          (.ok processed,
            [.listunspentCall, .createpsbtCall args,
             .walletprocesspsbtCall customerPSBT sign sighashtype])

/-- `processPSBT` (`src/main.ts` lines 101-112): apply
`walletprocesspsbt` to an existing blob with the given sign flag and
sighash type. -/
def processPSBT (node : NodeEnv) (psbtArg : String) (sign : Bool) (sighashtype : SigHashType) :
    Except Err String × List Event :=
  match node.walletprocesspsbt psbtArg sign sighashtype with
  | none => (.error .signingFailed, [.walletprocesspsbtCall psbtArg sign sighashtype])
  | some processed => (.ok processed, [.walletprocesspsbtCall psbtArg sign sighashtype])

/-- The interactive flow `psbt` (`src/main.ts` lines 128-157), as the
body of its promise chain: build the unsigned candidate, submit it
(`createPSBT`), re-fetch by the returned asset/id, check deep equality
of the re-fetch against the response, sign the sponsor's fee-augmented
blob with sighash `ALL`, resubmit (`updatePSBT`), re-fetch the final
record by the response's asset/id, and check deep equality again.  Any
failure ends the chain with that error (the source's `.catch` then
logs it). -/
def psbt (node : NodeEnv) (faas : FaasEnv) : Except Err Unit × List Event :=
  match getPSBT node false .ALL with
  | (.error e, tr) => (.error e, tr)
  | (.ok originalPSBT, tr0) =>
      let tr1 := tr0 ++ [.createPSBTCall ASSET_BTC originalPSBT]
      match faas.createPSBT ASSET_BTC originalPSBT with
      | none => (.error .exchangeRejected, tr1)
      | some feeIncludedPSBT =>
          let tr2 := tr1 ++ [.readPSBTCall feeIncludedPSBT.asset feeIncludedPSBT.id]
          match faas.readPSBT feeIncludedPSBT.asset feeIncludedPSBT.id with
          | none => (.error .networkFailure, tr2)
          | some readPSBT =>
              let tr3 := tr2 ++ [.equalityCheck1 readPSBT feeIncludedPSBT]
              match deepStrictEqual readPSBT feeIncludedPSBT with
              | .error e => (.error e, tr3)
              | .ok _ =>
                  match processPSBT node feeIncludedPSBT.psbt true .ALL with
                  | (.error e, trP) => (.error e, tr3 ++ trP)
                  | (.ok signedPSBT, trP) =>
                      let tr4 := tr3 ++ trP ++
                        [.updatePSBTCall ASSET_BTC feeIncludedPSBT.id signedPSBT]
                      match faas.updatePSBT ASSET_BTC feeIncludedPSBT.id signedPSBT with
                      | none => (.error .exchangeRejected, tr4)
                      | some broadcastPSBT =>
                          let tr5 := tr4 ++ [.readPSBT2Call broadcastPSBT.asset broadcastPSBT.id]
                          match faas.readPSBT broadcastPSBT.asset broadcastPSBT.id with
                          | none => (.error .networkFailure, tr5)
                          | some readPSBT2 =>
                              (deepStrictEqual readPSBT2 broadcastPSBT,
                               tr5 ++ [.equalityCheck2 readPSBT2 broadcastPSBT])

/-- The non-interactive flow `psbtni` (`src/main.ts` lines 169-182):
build the candidate signed with sighash `ALL|ANYONECANPAY`, submit it
(`createPSBTNI`), re-fetch by the response's asset/id and check deep
equality against the response. -/
def psbtni (node : NodeEnv) (faas : FaasEnv) : Except Err Unit × List Event :=
  match getPSBT node true .ALL_ANYONECANPAY with
  | (.error e, tr) => (.error e, tr)
  | (.ok signedPSBTNI, tr0) =>
      let tr1 := tr0 ++ [.createPSBTNICall ASSET_BTC signedPSBTNI]
      match faas.createPSBTNI ASSET_BTC signedPSBTNI with
      | none => (.error .exchangeRejected, tr1)
      | some broadcastPSBTNI =>
          let tr2 := tr1 ++ [.readPSBTNICall broadcastPSBTNI.asset broadcastPSBTNI.id]
          match faas.readPSBTNI broadcastPSBTNI.asset broadcastPSBTNI.id with
          | none => (.error .networkFailure, tr2)
          | some readPSBTNI =>
              (deepStrictEqual readPSBTNI broadcastPSBTNI,
               tr2 ++ [.equalityCheckNI readPSBTNI broadcastPSBTNI])

/-- The recognized values of the `UserChoice` enum
(`src/main.ts` lines 30-34). -/
def userChoiceValues : List String := ["basic", "psbt", "psbtni"]

/-- The entry point `run` (`src/main.ts` lines 190-238): reject an
unrecognized mode string before constructing the `Faas` client or
touching any collaborator; otherwise construct the client, run the
basic queries, run the interactive flow when selected (its result is
caught and logged by `psbt` itself, so `run` continues regardless),
list PSBTs, run the non-interactive flow when selected (likewise
caught), and list PSBTNIs.  The `deepStrictEqual` checks of
`faas.url()` and `faas.key()` against the constants compare the
constructor arguments with themselves and always pass, so they do not
appear as fallible steps. -/
def run (node : NodeEnv) (faas : FaasEnv) (choice : String) : Except Err Unit × List Event :=
  if choice ∈ userChoiceValues then
    let trA : List Event := [.faasConstructed FAAS_URL FAAS_KEY, .readApiKeyCall]
    match faas.readApiKey with
    | none => (.error .networkFailure, trA)
    | some k =>
        match deepStrictEqual k FAAS_KEY with
        | .error e => (.error e, trA)
        | .ok _ =>
            match faas.readCredit with
            | none => (.error .networkFailure, trA ++ [.readCreditCall])
            | some _ =>
                let trB := trA ++ [.readCreditCall, .readFeeCall]
                match faas.readFee with
                | none => (.error .networkFailure, trB)
                | some _ =>
                    let trC := trB ++ [.readRateCall]
                    match faas.readRate with
                    | none => (.error .networkFailure, trC)
                    | some _ =>
                        let pr := if choice = "psbt" then psbt node faas else (.ok (), [])
                        let trD := trC ++ pr.2 ++ [.readPSBTsCall]
                        match faas.readPSBTs with
                        | none => (.error .networkFailure, trD)
                        | some _ =>
                            let nr := if choice = "psbtni" then psbtni node faas else (.ok (), [])
                            let trE := trD ++ nr.2 ++ [.readPSBTNIsCall]
                            match faas.readPSBTNIs with
                            | none => (.error .networkFailure, trE)
                            | some _ => (.ok (), trE)
  else
    (.error .invalidMode, [])

/-- The trace left by a successful (or post-`createpsbt` failing)
`getPSBT` call on a wallet whose first coin is `u`. -/
def getTrace (node : NodeEnv) (u : Coin) (sign : Bool) (sh : SigHashType) : List Event :=
  [.listunspentCall, .createpsbtCall (firstCoinArgs u),
   .walletprocesspsbtCall (node.createpsbt (firstCoinArgs u)) sign sh]

/-- Position of each event in the protocol order of the two flows.
The wallet-processing call is ranked by its sign flag: the unsigned
candidate processing (round 1 of the interactive flow) is step 2, the
signing call (round 2 interactive, round 1 non-interactive) is step 6.
Run-level query events are not protocol steps and rank last. -/
def stepRank : Event → Nat
  | .listunspentCall => 0
  | .createpsbtCall _ => 1
  | .walletprocesspsbtCall _ false _ => 2
  | .walletprocesspsbtCall _ true _ => 6
  | .createPSBTCall _ _ => 3
  | .readPSBTCall _ _ => 4
  | .equalityCheck1 _ _ => 5
  | .updatePSBTCall _ _ _ => 7
  | .readPSBT2Call _ _ => 8
  | .equalityCheck2 _ _ => 9
  | .createPSBTNICall _ _ => 7
  | .readPSBTNICall _ _ => 8
  | .equalityCheckNI _ _ => 9
  | _ => 100

/-- `ev` is a step that fails in the given environments with error
`e`: the collaborator call it records returns `none` (with the error
kind of that call site), or it is an equality check over two distinct
records. -/
def eventFails (node : NodeEnv) (faas : FaasEnv) : Event → Err → Prop
  | .listunspentCall, e => node.listunspent = [] ∧ e = .noFundsAvailable
  | .walletprocesspsbtCall b s t, e =>
      node.walletprocesspsbt b s t = none ∧ e = .signingFailed
  | .createPSBTCall a b, e => faas.createPSBT a b = none ∧ e = .exchangeRejected
  | .readPSBTCall a i, e => faas.readPSBT a i = none ∧ e = .networkFailure
  | .equalityCheck1 r1 r2, e => r1 ≠ r2 ∧ e = .tamperDetected
  | .updatePSBTCall a i b, e => faas.updatePSBT a i b = none ∧ e = .exchangeRejected
  | .readPSBT2Call a i, e => faas.readPSBT a i = none ∧ e = .networkFailure
  | .equalityCheck2 r1 r2, e => r1 ≠ r2 ∧ e = .tamperDetected
  | .createPSBTNICall a b, e => faas.createPSBTNI a b = none ∧ e = .exchangeRejected
  | .readPSBTNICall a i, e => faas.readPSBTNI a i = none ∧ e = .networkFailure
  | .equalityCheckNI r1 r2, e => r1 ≠ r2 ∧ e = .tamperDetected
  | _, _ => False

/-- A concrete one-coin wallet used to evaluate the theorems on a
closed input. -/
def coin0 : Coin := ⟨"aa", 0, 5⟩

/-- A concrete sponsor response to `createPSBT`: note its blob
(`"fee-blob"`) is unrelated to the submitted candidate. -/
def recA : PSBT := ⟨"BTC", "id1", "FeeAdded", "fee-blob", "t0"⟩

/-- A concrete sponsor response to `updatePSBT`, carrying a fresh id
and a non-`Broadcast` state. -/
def recB : PSBT := ⟨"BTC", "id2", "Pending", "final-blob", "t1"⟩

/-- A concrete sponsor response for the non-interactive flow. -/
def recN : PSBTNI := ⟨"BTC", "nid", "Broadcast", "ni-blob", "t2"⟩

/-- A concrete node environment with one spendable coin; processing a
blob prepends `"p"`. -/
def cNode : NodeEnv := ⟨[coin0], fun _ => "cand", fun b _ _ => some ("p" ++ b)⟩

/-- A concrete node environment with an empty wallet. -/
def cNodeEmpty : NodeEnv := ⟨[], fun _ => "cand", fun b _ _ => some ("p" ++ b)⟩

/-- A concrete sponsor environment that accepts everything and is
self-consistent: reads mirror the last record it handed out for the
queried id. -/
def cFaas : FaasEnv :=
  ⟨fun _ _ => some recA,
   fun _ i => if i = "id1" then some recA else some recB,
   fun _ _ _ => some recB,
   fun _ _ => some recN,
   fun _ _ => some recN,
   some FAAS_KEY, some 0, some 1, some 1, some [], some []⟩

/-- A sponsor is self-consistent when reading back an exchange by the
asset/id of a record it just returned yields exactly that record. -/
def selfConsistent (faas : FaasEnv) : Prop :=
  (∀ a b r, faas.createPSBT a b = some r → faas.readPSBT r.asset r.id = some r) ∧
  (∀ a i b r, faas.updatePSBT a i b = some r → faas.readPSBT r.asset r.id = some r)

/-- Characterization of `getPSBT`: exactly three outcomes, decided by
the wallet environment. -/
theorem getPSBT_spec (node : NodeEnv) (sign : Bool) (sh : SigHashType) :
    (node.listunspent = [] ∧
      getPSBT node sign sh = (.error .noFundsAvailable, [.listunspentCall])) ∨
    (∃ u rest, node.listunspent = u :: rest ∧
      node.walletprocesspsbt (node.createpsbt (firstCoinArgs u)) sign sh = none ∧
      getPSBT node sign sh = (.error .signingFailed, getTrace node u sign sh)) ∨
    (∃ u rest s, node.listunspent = u :: rest ∧
      node.walletprocesspsbt (node.createpsbt (firstCoinArgs u)) sign sh = some s ∧
      getPSBT node sign sh = (.ok s, getTrace node u sign sh)) := by
  rcases hlu : node.listunspent with _ | ⟨u, rest⟩
  · exact Or.inl ⟨rfl, by simp [getPSBT, hlu]⟩
  · rcases hwp : node.walletprocesspsbt (node.createpsbt (firstCoinArgs u)) sign sh with _ | s
    · exact Or.inr (Or.inl ⟨u, rest, rfl, hwp, by simp [getPSBT, getTrace, hlu, hwp]⟩)
    · exact Or.inr (Or.inr ⟨u, rest, s, rfl, hwp, by simp [getPSBT, getTrace, hlu, hwp]⟩)

/-- Characterization of the interactive flow `psbt`: for every wallet
and sponsor environment the run takes exactly one of ten branches —
failing at one of the nine fallible steps, with the trace ending at
the failing step, or completing all ten steps successfully. -/
theorem psbt_spec (node : NodeEnv) (faas : FaasEnv) :
    (node.listunspent = [] ∧
      psbt node faas = (.error .noFundsAvailable, [.listunspentCall])) ∨
    (∃ u rest, node.listunspent = u :: rest ∧
      node.walletprocesspsbt (node.createpsbt (firstCoinArgs u)) false .ALL = none ∧
      psbt node faas = (.error .signingFailed, getTrace node u false .ALL)) ∨
    (∃ u rest s, node.listunspent = u :: rest ∧
      node.walletprocesspsbt (node.createpsbt (firstCoinArgs u)) false .ALL = some s ∧
      faas.createPSBT ASSET_BTC s = none ∧
      psbt node faas = (.error .exchangeRejected,
        getTrace node u false .ALL ++ [.createPSBTCall ASSET_BTC s])) ∨
    (∃ u rest s f, node.listunspent = u :: rest ∧
      node.walletprocesspsbt (node.createpsbt (firstCoinArgs u)) false .ALL = some s ∧
      faas.createPSBT ASSET_BTC s = some f ∧
      faas.readPSBT f.asset f.id = none ∧
      psbt node faas = (.error .networkFailure,
        getTrace node u false .ALL ++
          [.createPSBTCall ASSET_BTC s, .readPSBTCall f.asset f.id])) ∨
    (∃ u rest s f r, node.listunspent = u :: rest ∧
      node.walletprocesspsbt (node.createpsbt (firstCoinArgs u)) false .ALL = some s ∧
      faas.createPSBT ASSET_BTC s = some f ∧
      faas.readPSBT f.asset f.id = some r ∧ r ≠ f ∧
      psbt node faas = (.error .tamperDetected,
        getTrace node u false .ALL ++
          [.createPSBTCall ASSET_BTC s, .readPSBTCall f.asset f.id,
           .equalityCheck1 r f])) ∨
    (∃ u rest s f, node.listunspent = u :: rest ∧
      node.walletprocesspsbt (node.createpsbt (firstCoinArgs u)) false .ALL = some s ∧
      faas.createPSBT ASSET_BTC s = some f ∧
      faas.readPSBT f.asset f.id = some f ∧
      node.walletprocesspsbt f.psbt true .ALL = none ∧
      psbt node faas = (.error .signingFailed,
        getTrace node u false .ALL ++
          [.createPSBTCall ASSET_BTC s, .readPSBTCall f.asset f.id,
           .equalityCheck1 f f, .walletprocesspsbtCall f.psbt true .ALL])) ∨
    (∃ u rest s f sg, node.listunspent = u :: rest ∧
      node.walletprocesspsbt (node.createpsbt (firstCoinArgs u)) false .ALL = some s ∧
      faas.createPSBT ASSET_BTC s = some f ∧
      faas.readPSBT f.asset f.id = some f ∧
      node.walletprocesspsbt f.psbt true .ALL = some sg ∧
      faas.updatePSBT ASSET_BTC f.id sg = none ∧
      psbt node faas = (.error .exchangeRejected,
        getTrace node u false .ALL ++
          [.createPSBTCall ASSET_BTC s, .readPSBTCall f.asset f.id,
           .equalityCheck1 f f, .walletprocesspsbtCall f.psbt true .ALL,
           .updatePSBTCall ASSET_BTC f.id sg])) ∨
    (∃ u rest s f sg g, node.listunspent = u :: rest ∧
      node.walletprocesspsbt (node.createpsbt (firstCoinArgs u)) false .ALL = some s ∧
      faas.createPSBT ASSET_BTC s = some f ∧
      faas.readPSBT f.asset f.id = some f ∧
      node.walletprocesspsbt f.psbt true .ALL = some sg ∧
      faas.updatePSBT ASSET_BTC f.id sg = some g ∧
      faas.readPSBT g.asset g.id = none ∧
      psbt node faas = (.error .networkFailure,
        getTrace node u false .ALL ++
          [.createPSBTCall ASSET_BTC s, .readPSBTCall f.asset f.id,
           .equalityCheck1 f f, .walletprocesspsbtCall f.psbt true .ALL,
           .updatePSBTCall ASSET_BTC f.id sg, .readPSBT2Call g.asset g.id])) ∨
    (∃ u rest s f sg g r2, node.listunspent = u :: rest ∧
      node.walletprocesspsbt (node.createpsbt (firstCoinArgs u)) false .ALL = some s ∧
      faas.createPSBT ASSET_BTC s = some f ∧
      faas.readPSBT f.asset f.id = some f ∧
      node.walletprocesspsbt f.psbt true .ALL = some sg ∧
      faas.updatePSBT ASSET_BTC f.id sg = some g ∧
      faas.readPSBT g.asset g.id = some r2 ∧ r2 ≠ g ∧
      psbt node faas = (.error .tamperDetected,
        getTrace node u false .ALL ++
          [.createPSBTCall ASSET_BTC s, .readPSBTCall f.asset f.id,
           .equalityCheck1 f f, .walletprocesspsbtCall f.psbt true .ALL,
           .updatePSBTCall ASSET_BTC f.id sg, .readPSBT2Call g.asset g.id,
           .equalityCheck2 r2 g])) ∨
    (∃ u rest s f sg g, node.listunspent = u :: rest ∧
      node.walletprocesspsbt (node.createpsbt (firstCoinArgs u)) false .ALL = some s ∧
      faas.createPSBT ASSET_BTC s = some f ∧
      faas.readPSBT f.asset f.id = some f ∧
      node.walletprocesspsbt f.psbt true .ALL = some sg ∧
      faas.updatePSBT ASSET_BTC f.id sg = some g ∧
      faas.readPSBT g.asset g.id = some g ∧
      psbt node faas = (.ok (),
        getTrace node u false .ALL ++
          [.createPSBTCall ASSET_BTC s, .readPSBTCall f.asset f.id,
           .equalityCheck1 f f, .walletprocesspsbtCall f.psbt true .ALL,
           .updatePSBTCall ASSET_BTC f.id sg, .readPSBT2Call g.asset g.id,
           .equalityCheck2 g g])) := by
  rcases hlu : node.listunspent with _ | ⟨u, rest⟩
  · exact Or.inl ⟨rfl, by simp [psbt, getPSBT, hlu]⟩
  · rcases hwp : node.walletprocesspsbt (node.createpsbt (firstCoinArgs u)) false .ALL with _ | s
    · refine Or.inr (Or.inl ⟨u, rest, rfl, hwp, ?_⟩)
      simp [psbt, getPSBT, getTrace, hlu, hwp]
    · rcases hcr : faas.createPSBT ASSET_BTC s with _ | f
      · refine Or.inr (Or.inr (Or.inl ⟨u, rest, s, rfl, hwp, hcr, ?_⟩))
        simp [psbt, getPSBT, getTrace, hlu, hwp, hcr]
      · rcases hrd : faas.readPSBT f.asset f.id with _ | r
        · refine Or.inr (Or.inr (Or.inr (Or.inl ⟨u, rest, s, f, rfl, hwp, hcr, hrd, ?_⟩)))
          simp [psbt, getPSBT, getTrace, hlu, hwp, hcr, hrd]
        · by_cases hr : r = f
          · subst hr
            rcases hwp2 : node.walletprocesspsbt r.psbt true .ALL with _ | sg
            · refine Or.inr (Or.inr (Or.inr (Or.inr (Or.inr (Or.inl
                ⟨u, rest, s, r, rfl, hwp, hcr, hrd, hwp2, ?_⟩)))))
              simp [psbt, getPSBT, getTrace, processPSBT, deepStrictEqual,
                hlu, hwp, hcr, hrd, hwp2]
            · rcases hup : faas.updatePSBT ASSET_BTC r.id sg with _ | g
              · refine Or.inr (Or.inr (Or.inr (Or.inr (Or.inr (Or.inr (Or.inl
                  ⟨u, rest, s, r, sg, rfl, hwp, hcr, hrd, hwp2, hup, ?_⟩))))))
                simp [psbt, getPSBT, getTrace, processPSBT, deepStrictEqual,
                  hlu, hwp, hcr, hrd, hwp2, hup]
              · rcases hrd2 : faas.readPSBT g.asset g.id with _ | r2
                · refine Or.inr (Or.inr (Or.inr (Or.inr (Or.inr (Or.inr (Or.inr (Or.inl
                    ⟨u, rest, s, r, sg, g, rfl, hwp, hcr, hrd, hwp2, hup, hrd2, ?_⟩)))))))
                  simp [psbt, getPSBT, getTrace, processPSBT, deepStrictEqual,
                    hlu, hwp, hcr, hrd, hwp2, hup, hrd2]
                · by_cases hr2 : r2 = g
                  · subst hr2
                    refine Or.inr (Or.inr (Or.inr (Or.inr (Or.inr (Or.inr (Or.inr (Or.inr
                      (Or.inr ⟨u, rest, s, r, sg, r2, rfl, hwp, hcr, hrd, hwp2, hup, hrd2, ?_⟩))))))))
                    simp [psbt, getPSBT, getTrace, processPSBT, deepStrictEqual,
                      hlu, hwp, hcr, hrd, hwp2, hup, hrd2]
                  · refine Or.inr (Or.inr (Or.inr (Or.inr (Or.inr (Or.inr (Or.inr (Or.inr
                      (Or.inl ⟨u, rest, s, r, sg, g, r2, rfl, hwp, hcr, hrd, hwp2, hup, hrd2, hr2, ?_⟩))))))))
                    simp [psbt, getPSBT, getTrace, processPSBT, deepStrictEqual,
                      hlu, hwp, hcr, hrd, hwp2, hup, hrd2, hr2]
          · refine Or.inr (Or.inr (Or.inr (Or.inr (Or.inl
              ⟨u, rest, s, f, r, rfl, hwp, hcr, hrd, hr, ?_⟩))))
            simp [psbt, getPSBT, getTrace, deepStrictEqual, hlu, hwp, hcr, hrd, hr]

/-- Characterization of the non-interactive flow `psbtni`: exactly six
outcomes, with the trace ending at the failing step on failure. -/
theorem psbtni_spec (node : NodeEnv) (faas : FaasEnv) :
    (node.listunspent = [] ∧
      psbtni node faas = (.error .noFundsAvailable, [.listunspentCall])) ∨
    (∃ u rest, node.listunspent = u :: rest ∧
      node.walletprocesspsbt (node.createpsbt (firstCoinArgs u)) true .ALL_ANYONECANPAY = none ∧
      psbtni node faas = (.error .signingFailed, getTrace node u true .ALL_ANYONECANPAY)) ∨
    (∃ u rest s, node.listunspent = u :: rest ∧
      node.walletprocesspsbt (node.createpsbt (firstCoinArgs u)) true .ALL_ANYONECANPAY = some s ∧
      faas.createPSBTNI ASSET_BTC s = none ∧
      psbtni node faas = (.error .exchangeRejected,
        getTrace node u true .ALL_ANYONECANPAY ++ [.createPSBTNICall ASSET_BTC s])) ∨
    (∃ u rest s f, node.listunspent = u :: rest ∧
      node.walletprocesspsbt (node.createpsbt (firstCoinArgs u)) true .ALL_ANYONECANPAY = some s ∧
      faas.createPSBTNI ASSET_BTC s = some f ∧
      faas.readPSBTNI f.asset f.id = none ∧
      psbtni node faas = (.error .networkFailure,
        getTrace node u true .ALL_ANYONECANPAY ++
          [.createPSBTNICall ASSET_BTC s, .readPSBTNICall f.asset f.id])) ∨
    (∃ u rest s f r, node.listunspent = u :: rest ∧
      node.walletprocesspsbt (node.createpsbt (firstCoinArgs u)) true .ALL_ANYONECANPAY = some s ∧
      faas.createPSBTNI ASSET_BTC s = some f ∧
      faas.readPSBTNI f.asset f.id = some r ∧ r ≠ f ∧
      psbtni node faas = (.error .tamperDetected,
        getTrace node u true .ALL_ANYONECANPAY ++
          [.createPSBTNICall ASSET_BTC s, .readPSBTNICall f.asset f.id,
           .equalityCheckNI r f])) ∨
    (∃ u rest s f, node.listunspent = u :: rest ∧
      node.walletprocesspsbt (node.createpsbt (firstCoinArgs u)) true .ALL_ANYONECANPAY = some s ∧
      faas.createPSBTNI ASSET_BTC s = some f ∧
      faas.readPSBTNI f.asset f.id = some f ∧
      psbtni node faas = (.ok (),
        getTrace node u true .ALL_ANYONECANPAY ++
          [.createPSBTNICall ASSET_BTC s, .readPSBTNICall f.asset f.id,
           .equalityCheckNI f f])) := by
  rcases hlu : node.listunspent with _ | ⟨u, rest⟩
  · exact Or.inl ⟨rfl, by simp [psbtni, getPSBT, hlu]⟩
  · rcases hwp : node.walletprocesspsbt (node.createpsbt (firstCoinArgs u)) true
        .ALL_ANYONECANPAY with _ | s
    · refine Or.inr (Or.inl ⟨u, rest, rfl, hwp, ?_⟩)
      simp [psbtni, getPSBT, getTrace, hlu, hwp]
    · rcases hcr : faas.createPSBTNI ASSET_BTC s with _ | f
      · refine Or.inr (Or.inr (Or.inl ⟨u, rest, s, rfl, hwp, hcr, ?_⟩))
        simp [psbtni, getPSBT, getTrace, hlu, hwp, hcr]
      · rcases hrd : faas.readPSBTNI f.asset f.id with _ | r
        · refine Or.inr (Or.inr (Or.inr (Or.inl ⟨u, rest, s, f, rfl, hwp, hcr, hrd, ?_⟩)))
          simp [psbtni, getPSBT, getTrace, hlu, hwp, hcr, hrd]
        · by_cases hr : r = f
          · subst hr
            refine Or.inr (Or.inr (Or.inr (Or.inr (Or.inr
              ⟨u, rest, s, r, rfl, hwp, hcr, hrd, ?_⟩))))
            simp [psbtni, getPSBT, getTrace, deepStrictEqual, hlu, hwp, hcr, hrd]
          · refine Or.inr (Or.inr (Or.inr (Or.inr (Or.inl
              ⟨u, rest, s, f, r, rfl, hwp, hcr, hrd, hr, ?_⟩))))
            simp [psbtni, getPSBT, getTrace, deepStrictEqual, hlu, hwp, hcr, hrd, hr]

/-- On a non-empty wallet, `getPSBT` leaves the same three-event trace
whether or not the processing call succeeds. -/
theorem getPSBT_trace (node : NodeEnv) (sign : Bool) (sh : SigHashType)
    (u : Coin) (rest : List Coin) (h : node.listunspent = u :: rest) :
    (getPSBT node sign sh).2 = getTrace node u sign sh := by
  rcases hw : node.walletprocesspsbt (node.createpsbt (firstCoinArgs u)) sign sh with _ | s <;>
    simp [getPSBT, getTrace, h, hw]

/-- C1: the Commitment Verifier (`deepStrictEqual` applied to exchange
records at `src/main.ts` lines 137, 153 and 178) succeeds exactly when
the expected and observed records are structurally equal, and fails
with `TamperDetected` exactly when some field — asset identifier, id,
state, serialized blob, or txid — differs between the two records. -/
theorem C1_verifier_deep_equality :
    (∀ r1 r2 : PSBT,
      (deepStrictEqual r1 r2 = .ok () ↔ r1 = r2) ∧
      (deepStrictEqual r1 r2 = .error .tamperDetected ↔
        (r1.asset ≠ r2.asset ∨ r1.id ≠ r2.id ∨ r1.state ≠ r2.state ∨
         r1.psbt ≠ r2.psbt ∨ r1.txid ≠ r2.txid))) ∧
    (∀ r1 r2 : PSBTNI,
      (deepStrictEqual r1 r2 = .ok () ↔ r1 = r2) ∧
      (deepStrictEqual r1 r2 = .error .tamperDetected ↔
        (r1.asset ≠ r2.asset ∨ r1.id ≠ r2.id ∨ r1.state ≠ r2.state ∨
         r1.psbt ≠ r2.psbt ∨ r1.txid ≠ r2.txid))) := by
  constructor <;>
    · intro r1 r2
      obtain ⟨a1, i1, s1, p1, t1⟩ := r1
      obtain ⟨a2, i2, s2, p2, t2⟩ := r2
      by_cases h : a1 = a2 ∧ i1 = i2 ∧ s1 = s2 ∧ p1 = p2 ∧ t1 = t2
      · obtain ⟨h1, h2, h3, h4, h5⟩ := h
        subst h1; subst h2; subst h3; subst h4; subst h5
        simp [deepStrictEqual]
      · constructor
        · simp only [deepStrictEqual]
          rw [if_neg (by simpa using h)]
          simp only [reduceCtorEq, false_iff]
          simpa using h
        · simp only [deepStrictEqual]
          rw [if_neg (by simpa using h)]
          simp only [true_iff]
          tauto

/-- Witness for C1 at concrete records: equal records pass, records
differing in a field fail with `TamperDetected`. -/
theorem C1_verifier_deep_equality_witness :
    deepStrictEqual recA recA = .ok () ∧
    deepStrictEqual recA recB = .error .tamperDetected :=
  ⟨(C1_verifier_deep_equality.1 recA recA).1.mpr rfl,
   (C1_verifier_deep_equality.1 recA recB).2.mpr (by decide)⟩

/-- C6: for any wallet state with at least one spendable coin, the
candidate-construction step of `getPSBT` hands `createpsbt` a
transaction with a single input naming a spendable coin, a single
output paying that coin's full amount to `OUTPUT_ADDRESS` (so zero fee
is withheld), locktime 0 and the replaceable flag; and when `sign` is
false the subsequent wallet-processing call does not sign. -/
theorem C6_candidate_construction (node : NodeEnv) (sign : Bool) (sh : SigHashType)
    (u : Coin) (rest : List Coin) (h : node.listunspent = u :: rest) :
    ∃ args : CreatePsbtArgs,
      Event.createpsbtCall args ∈ (getPSBT node sign sh).2 ∧
      args.inputs = [⟨u.txid, u.vout⟩] ∧ u ∈ node.listunspent ∧
      args.outputs = [⟨OUTPUT_ADDRESS, u.amount⟩] ∧
      (args.outputs.map TransactionOutput.amount).sum = u.amount ∧
      args.locktime = 0 ∧ args.replaceable = true ∧
      (sign = false →
        Event.walletprocesspsbtCall (node.createpsbt args) false sh ∈ (getPSBT node sign sh).2) := by
  refine ⟨firstCoinArgs u, ?_, rfl, by simp [h], rfl, by simp [firstCoinArgs], rfl, rfl, ?_⟩
  · rw [getPSBT_trace node sign sh u rest h]
    simp [getTrace]
  · intro hs
    subst hs
    rw [getPSBT_trace node false sh u rest h]
    simp [getTrace]

/-- Witness for C6 on the concrete one-coin wallet. -/
theorem C6_candidate_construction_witness :
    ∃ args : CreatePsbtArgs,
      Event.createpsbtCall args ∈ (getPSBT cNode false .ALL).2 ∧
      args.inputs = [⟨coin0.txid, coin0.vout⟩] ∧ coin0 ∈ cNode.listunspent ∧
      args.outputs = [⟨OUTPUT_ADDRESS, coin0.amount⟩] ∧
      (args.outputs.map TransactionOutput.amount).sum = coin0.amount ∧
      args.locktime = 0 ∧ args.replaceable = true ∧
      (false = false →
        Event.walletprocesspsbtCall (cNode.createpsbt args) false .ALL ∈ (getPSBT cNode false .ALL).2) :=
  C6_candidate_construction cNode false .ALL coin0 [] rfl

/-- C7: an unrecognized mode selector makes `run` fail with
`InvalidMode` on an empty trace: no wallet call, no sponsor call, and
no `Faas` client construction happens. -/
theorem C7_invalid_mode (node : NodeEnv) (faas : FaasEnv) (choice : String)
    (h : choice ∉ userChoiceValues) :
    run node faas choice = (.error .invalidMode, []) := by
  simp only [run, if_neg h]

/-- Witness for C7 at the spec's own example selector `"none"`. -/
theorem C7_invalid_mode_witness :
    run cNode cFaas "none" = (.error .invalidMode, []) :=
  C7_invalid_mode cNode cFaas "none" (by decide)

/-- C8: `getPSBT` fails with `NoFundsAvailable` exactly when the
wallet's list of unspent coins is empty; it neither succeeds nor fails
with a different error in that case, and a non-empty coin list never
produces this error. -/
theorem C8_no_funds (node : NodeEnv) (sign : Bool) (sh : SigHashType) :
    (node.listunspent = [] →
      getPSBT node sign sh = (.error .noFundsAvailable, [.listunspentCall])) ∧
    ((getPSBT node sign sh).1 = .error .noFundsAvailable → node.listunspent = []) := by
  rcases getPSBT_spec node sign sh with ⟨h, htr⟩ | ⟨u, rest, hlu, hwp, htr⟩ |
    ⟨u, rest, s, hlu, hwp, htr⟩
  · exact ⟨fun _ => htr, fun _ => h⟩
  · constructor
    · intro he; rw [he] at hlu; exact absurd hlu (by simp)
    · intro he; rw [htr] at he; simp at he
  · constructor
    · intro he; rw [he] at hlu; exact absurd hlu (by simp)
    · intro he; rw [htr] at he; simp at he

/-- Witness for C8 on the concrete empty wallet. -/
theorem C8_no_funds_witness :
    getPSBT cNodeEmpty false .ALL = (.error .noFundsAvailable, [.listunspentCall]) :=
  (C8_no_funds cNodeEmpty false .ALL).1 rfl

/-- The interactive trace is strictly ordered by protocol step: no
step ever appears twice (no retry) and steps appear in protocol
order. -/
theorem psbt_chain (node : NodeEnv) (faas : FaasEnv) :
    List.Chain' (fun a b => stepRank a < stepRank b) (psbt node faas).2 := by
  rcases psbt_spec node faas with ⟨h, htr⟩ | ⟨u, rest, hlu, hwp, htr⟩ |
    ⟨u, rest, s, hlu, hwp, hcr, htr⟩ | ⟨u, rest, s, f, hlu, hwp, hcr, hrd, htr⟩ |
    ⟨u, rest, s, f, r, hlu, hwp, hcr, hrd, hne, htr⟩ |
    ⟨u, rest, s, f, hlu, hwp, hcr, hrd, hwp2, htr⟩ |
    ⟨u, rest, s, f, sg, hlu, hwp, hcr, hrd, hwp2, hup, htr⟩ |
    ⟨u, rest, s, f, sg, g, hlu, hwp, hcr, hrd, hwp2, hup, hrd2, htr⟩ |
    ⟨u, rest, s, f, sg, g, r2, hlu, hwp, hcr, hrd, hwp2, hup, hrd2, hne2, htr⟩ |
    ⟨u, rest, s, f, sg, g, hlu, hwp, hcr, hrd, hwp2, hup, hrd2, htr⟩ <;>
  rw [htr] <;> simp [getTrace, stepRank, List.chain'_cons]

/-- The non-interactive trace is strictly ordered by protocol step. -/
theorem psbtni_chain (node : NodeEnv) (faas : FaasEnv) :
    List.Chain' (fun a b => stepRank a < stepRank b) (psbtni node faas).2 := by
  rcases psbtni_spec node faas with ⟨h, htr⟩ | ⟨u, rest, hlu, hwp, htr⟩ |
    ⟨u, rest, s, hlu, hwp, hcr, htr⟩ | ⟨u, rest, s, f, hlu, hwp, hcr, hrd, htr⟩ |
    ⟨u, rest, s, f, r, hlu, hwp, hcr, hrd, hne, htr⟩ |
    ⟨u, rest, s, f, hlu, hwp, hcr, hrd, htr⟩ <;>
  rw [htr] <;> simp [getTrace, stepRank, List.chain'_cons]

/-- When the interactive flow ends in an error, the last event of its
trace is exactly the step that failed with that error; nothing runs
after it. -/
theorem psbt_error_last (node : NodeEnv) (faas : FaasEnv) (e : Err)
    (he : (psbt node faas).1 = .error e) :
    ∃ pre ev, (psbt node faas).2 = pre ++ [ev] ∧ eventFails node faas ev e := by
  rcases psbt_spec node faas with ⟨h, htr⟩ | ⟨u, rest, hlu, hwp, htr⟩ |
    ⟨u, rest, s, hlu, hwp, hcr, htr⟩ | ⟨u, rest, s, f, hlu, hwp, hcr, hrd, htr⟩ |
    ⟨u, rest, s, f, r, hlu, hwp, hcr, hrd, hne, htr⟩ |
    ⟨u, rest, s, f, hlu, hwp, hcr, hrd, hwp2, htr⟩ |
    ⟨u, rest, s, f, sg, hlu, hwp, hcr, hrd, hwp2, hup, htr⟩ |
    ⟨u, rest, s, f, sg, g, hlu, hwp, hcr, hrd, hwp2, hup, hrd2, htr⟩ |
    ⟨u, rest, s, f, sg, g, r2, hlu, hwp, hcr, hrd, hwp2, hup, hrd2, hne2, htr⟩ |
    ⟨u, rest, s, f, sg, g, hlu, hwp, hcr, hrd, hwp2, hup, hrd2, htr⟩
  · rw [htr] at he; simp at he; subst he
    refine ⟨[], .listunspentCall, ?_, ?_⟩
    · rw [htr]; simp
    · simp [eventFails, h]
  · rw [htr] at he; simp at he; subst he
    refine ⟨[.listunspentCall, .createpsbtCall (firstCoinArgs u)],
      .walletprocesspsbtCall (node.createpsbt (firstCoinArgs u)) false .ALL, ?_, ?_⟩
    · rw [htr]; simp [getTrace]
    · simp [eventFails, hwp]
  · rw [htr] at he; simp at he; subst he
    refine ⟨getTrace node u false .ALL, .createPSBTCall ASSET_BTC s, ?_, ?_⟩
    · rw [htr]
    · simp [eventFails, hcr]
  · rw [htr] at he; simp at he; subst he
    refine ⟨getTrace node u false .ALL ++ [.createPSBTCall ASSET_BTC s],
      .readPSBTCall f.asset f.id, ?_, ?_⟩
    · rw [htr]; simp
    · simp [eventFails, hrd]
  · rw [htr] at he; simp at he; subst he
    refine ⟨getTrace node u false .ALL ++
      [.createPSBTCall ASSET_BTC s, .readPSBTCall f.asset f.id],
      .equalityCheck1 r f, ?_, ?_⟩
    · rw [htr]; simp
    · simp [eventFails, hne]
  · rw [htr] at he; simp at he; subst he
    refine ⟨getTrace node u false .ALL ++
      [.createPSBTCall ASSET_BTC s, .readPSBTCall f.asset f.id, .equalityCheck1 f f],
      .walletprocesspsbtCall f.psbt true .ALL, ?_, ?_⟩
    · rw [htr]; simp
    · simp [eventFails, hwp2]
  · rw [htr] at he; simp at he; subst he
    refine ⟨getTrace node u false .ALL ++
      [.createPSBTCall ASSET_BTC s, .readPSBTCall f.asset f.id, .equalityCheck1 f f,
       .walletprocesspsbtCall f.psbt true .ALL],
      .updatePSBTCall ASSET_BTC f.id sg, ?_, ?_⟩
    · rw [htr]; simp
    · simp [eventFails, hup]
  · rw [htr] at he; simp at he; subst he
    refine ⟨getTrace node u false .ALL ++
      [.createPSBTCall ASSET_BTC s, .readPSBTCall f.asset f.id, .equalityCheck1 f f,
       .walletprocesspsbtCall f.psbt true .ALL, .updatePSBTCall ASSET_BTC f.id sg],
      .readPSBT2Call g.asset g.id, ?_, ?_⟩
    · rw [htr]; simp
    · simp [eventFails, hrd2]
  · rw [htr] at he; simp at he; subst he
    refine ⟨getTrace node u false .ALL ++
      [.createPSBTCall ASSET_BTC s, .readPSBTCall f.asset f.id, .equalityCheck1 f f,
       .walletprocesspsbtCall f.psbt true .ALL, .updatePSBTCall ASSET_BTC f.id sg,
       .readPSBT2Call g.asset g.id],
      .equalityCheck2 r2 g, ?_, ?_⟩
    · rw [htr]; simp
    · simp [eventFails, hne2]
  · rw [htr] at he; simp at he

/-- When the non-interactive flow ends in an error, the last event of
its trace is exactly the step that failed with that error. -/
theorem psbtni_error_last (node : NodeEnv) (faas : FaasEnv) (e : Err)
    (he : (psbtni node faas).1 = .error e) :
    ∃ pre ev, (psbtni node faas).2 = pre ++ [ev] ∧ eventFails node faas ev e := by
  rcases psbtni_spec node faas with ⟨h, htr⟩ | ⟨u, rest, hlu, hwp, htr⟩ |
    ⟨u, rest, s, hlu, hwp, hcr, htr⟩ | ⟨u, rest, s, f, hlu, hwp, hcr, hrd, htr⟩ |
    ⟨u, rest, s, f, r, hlu, hwp, hcr, hrd, hne, htr⟩ |
    ⟨u, rest, s, f, hlu, hwp, hcr, hrd, htr⟩
  · rw [htr] at he; simp at he; subst he
    refine ⟨[], .listunspentCall, ?_, ?_⟩
    · rw [htr]; simp
    · simp [eventFails, h]
  · rw [htr] at he; simp at he; subst he
    refine ⟨[.listunspentCall, .createpsbtCall (firstCoinArgs u)],
      .walletprocesspsbtCall (node.createpsbt (firstCoinArgs u)) true .ALL_ANYONECANPAY, ?_, ?_⟩
    · rw [htr]; simp [getTrace]
    · simp [eventFails, hwp]
  · rw [htr] at he; simp at he; subst he
    refine ⟨getTrace node u true .ALL_ANYONECANPAY, .createPSBTNICall ASSET_BTC s, ?_, ?_⟩
    · rw [htr]
    · simp [eventFails, hcr]
  · rw [htr] at he; simp at he; subst he
    refine ⟨getTrace node u true .ALL_ANYONECANPAY ++ [.createPSBTNICall ASSET_BTC s],
      .readPSBTNICall f.asset f.id, ?_, ?_⟩
    · rw [htr]; simp
    · simp [eventFails, hrd]
  · rw [htr] at he; simp at he; subst he
    refine ⟨getTrace node u true .ALL_ANYONECANPAY ++
      [.createPSBTNICall ASSET_BTC s, .readPSBTNICall f.asset f.id],
      .equalityCheckNI r f, ?_, ?_⟩
    · rw [htr]; simp
    · simp [eventFails, hne]
  · rw [htr] at he; simp at he

/-- C3: every error is terminal for the current run.  In both flows:
no protocol step is ever retried (the trace is strictly increasing in
protocol order), and when the flow fails with error `e` the trace ends
at the very step whose failure explains `e` — no protocol step runs
after a failed verification, signing, sponsor or network step. -/
theorem C3_errors_terminal (node : NodeEnv) (faas : FaasEnv) :
    List.Chain' (fun a b => stepRank a < stepRank b) (psbt node faas).2 ∧
    List.Chain' (fun a b => stepRank a < stepRank b) (psbtni node faas).2 ∧
    (∀ e, (psbt node faas).1 = .error e →
      ∃ pre ev, (psbt node faas).2 = pre ++ [ev] ∧ eventFails node faas ev e) ∧
    (∀ e, (psbtni node faas).1 = .error e →
      ∃ pre ev, (psbtni node faas).2 = pre ++ [ev] ∧ eventFails node faas ev e) :=
  ⟨psbt_chain node faas, psbtni_chain node faas,
   fun e he => psbt_error_last node faas e he,
   fun e he => psbtni_error_last node faas e he⟩

/-- Witness for C3: on the empty wallet the interactive flow fails
with `NoFundsAvailable` and its trace ends at the failing wallet
query. -/
theorem C3_errors_terminal_witness :
    ∃ pre ev, (psbt cNodeEmpty cFaas).2 = pre ++ [ev] ∧
      eventFails cNodeEmpty cFaas ev .noFundsAvailable :=
  (C3_errors_terminal cNodeEmpty cFaas).2.2.1 .noFundsAvailable rfl

/-- C2: in the interactive flow, full-commitment signing happens only
after the equality check has passed for that round: every signing call
(`sign` true) in the trace sits strictly after a passing first
equality check, and signs exactly the blob of the record that check
verified; and if the first check fails (the two records differ) no
signing call appears anywhere in the trace. -/
theorem C2_sign_only_after_verifier (node : NodeEnv) (faas : FaasEnv) :
    (∀ b sh, Event.walletprocesspsbtCall b true sh ∈ (psbt node faas).2 →
      ∃ l1 l2 r, (psbt node faas).2 = l1 ++ Event.equalityCheck1 r r :: l2 ∧
        Event.walletprocesspsbtCall b true sh ∈ l2 ∧ b = r.psbt) ∧
    (∀ r1 r2, Event.equalityCheck1 r1 r2 ∈ (psbt node faas).2 → r1 ≠ r2 →
      ∀ b sh, Event.walletprocesspsbtCall b true sh ∉ (psbt node faas).2) := by
  rcases psbt_spec node faas with ⟨h, htr⟩ | ⟨u, rest, hlu, hwp, htr⟩ |
    ⟨u, rest, s, hlu, hwp, hcr, htr⟩ | ⟨u, rest, s, f, hlu, hwp, hcr, hrd, htr⟩ |
    ⟨u, rest, s, f, r, hlu, hwp, hcr, hrd, hne, htr⟩ |
    ⟨u, rest, s, f, hlu, hwp, hcr, hrd, hwp2, htr⟩ |
    ⟨u, rest, s, f, sg, hlu, hwp, hcr, hrd, hwp2, hup, htr⟩ |
    ⟨u, rest, s, f, sg, g, hlu, hwp, hcr, hrd, hwp2, hup, hrd2, htr⟩ |
    ⟨u, rest, s, f, sg, g, r2, hlu, hwp, hcr, hrd, hwp2, hup, hrd2, hne2, htr⟩ |
    ⟨u, rest, s, f, sg, g, hlu, hwp, hcr, hrd, hwp2, hup, hrd2, htr⟩
  · refine ⟨fun b sh hmem => ?_, fun q1 q2 hmem hq b sh hmem2 => ?_⟩
    · rw [htr] at hmem; simp at hmem
    · rw [htr] at hmem; simp at hmem
  · refine ⟨fun b sh hmem => ?_, fun q1 q2 hmem hq b sh hmem2 => ?_⟩
    · rw [htr] at hmem; simp [getTrace] at hmem
    · rw [htr] at hmem; simp [getTrace] at hmem
  · refine ⟨fun b sh hmem => ?_, fun q1 q2 hmem hq b sh hmem2 => ?_⟩
    · rw [htr] at hmem; simp [getTrace] at hmem
    · rw [htr] at hmem; simp [getTrace] at hmem
  · refine ⟨fun b sh hmem => ?_, fun q1 q2 hmem hq b sh hmem2 => ?_⟩
    · rw [htr] at hmem; simp [getTrace] at hmem
    · rw [htr] at hmem; simp [getTrace] at hmem
  · refine ⟨fun b sh hmem => ?_, fun q1 q2 hmem hq b sh hmem2 => ?_⟩
    · rw [htr] at hmem; simp [getTrace] at hmem
    · rw [htr] at hmem2; simp [getTrace] at hmem2
  · refine ⟨fun b sh hmem => ?_, fun q1 q2 hmem hq b sh hmem2 => ?_⟩
    · rw [htr] at hmem ⊢
      simp [getTrace] at hmem
      obtain ⟨hb, hsh⟩ := hmem
      subst hb; subst hsh
      refine ⟨[.listunspentCall, .createpsbtCall (firstCoinArgs u),
        .walletprocesspsbtCall (node.createpsbt (firstCoinArgs u)) false .ALL,
        .createPSBTCall ASSET_BTC s, .readPSBTCall f.asset f.id],
        [.walletprocesspsbtCall f.psbt true .ALL], f, ?_, ?_, rfl⟩
      · simp [getTrace]
      · simp
    · rw [htr] at hmem
      simp [getTrace] at hmem
      obtain ⟨h1, h2⟩ := hmem
      subst h1; subst h2
      exact absurd rfl hq
  · refine ⟨fun b sh hmem => ?_, fun q1 q2 hmem hq b sh hmem2 => ?_⟩
    · rw [htr] at hmem ⊢
      simp [getTrace] at hmem
      obtain ⟨hb, hsh⟩ := hmem
      subst hb; subst hsh
      refine ⟨[.listunspentCall, .createpsbtCall (firstCoinArgs u),
        .walletprocesspsbtCall (node.createpsbt (firstCoinArgs u)) false .ALL,
        .createPSBTCall ASSET_BTC s, .readPSBTCall f.asset f.id],
        [.walletprocesspsbtCall f.psbt true .ALL, .updatePSBTCall ASSET_BTC f.id sg],
        f, ?_, ?_, rfl⟩
      · simp [getTrace]
      · simp
    · rw [htr] at hmem
      simp [getTrace] at hmem
      obtain ⟨h1, h2⟩ := hmem
      subst h1; subst h2
      exact absurd rfl hq
  · refine ⟨fun b sh hmem => ?_, fun q1 q2 hmem hq b sh hmem2 => ?_⟩
    · rw [htr] at hmem ⊢
      simp [getTrace] at hmem
      obtain ⟨hb, hsh⟩ := hmem
      subst hb; subst hsh
      refine ⟨[.listunspentCall, .createpsbtCall (firstCoinArgs u),
        .walletprocesspsbtCall (node.createpsbt (firstCoinArgs u)) false .ALL,
        .createPSBTCall ASSET_BTC s, .readPSBTCall f.asset f.id],
        [.walletprocesspsbtCall f.psbt true .ALL, .updatePSBTCall ASSET_BTC f.id sg,
         .readPSBT2Call g.asset g.id], f, ?_, ?_, rfl⟩
      · simp [getTrace]
      · simp
    · rw [htr] at hmem
      simp [getTrace] at hmem
      obtain ⟨h1, h2⟩ := hmem
      subst h1; subst h2
      exact absurd rfl hq
  · refine ⟨fun b sh hmem => ?_, fun q1 q2 hmem hq b sh hmem2 => ?_⟩
    · rw [htr] at hmem ⊢
      simp [getTrace] at hmem
      obtain ⟨hb, hsh⟩ := hmem
      subst hb; subst hsh
      refine ⟨[.listunspentCall, .createpsbtCall (firstCoinArgs u),
        .walletprocesspsbtCall (node.createpsbt (firstCoinArgs u)) false .ALL,
        .createPSBTCall ASSET_BTC s, .readPSBTCall f.asset f.id],
        [.walletprocesspsbtCall f.psbt true .ALL, .updatePSBTCall ASSET_BTC f.id sg,
         .readPSBT2Call g.asset g.id, .equalityCheck2 r2 g], f, ?_, ?_, rfl⟩
      · simp [getTrace]
      · simp
    · rw [htr] at hmem
      simp [getTrace] at hmem
      obtain ⟨h1, h2⟩ := hmem
      subst h1; subst h2
      exact absurd rfl hq
  · refine ⟨fun b sh hmem => ?_, fun q1 q2 hmem hq b sh hmem2 => ?_⟩
    · rw [htr] at hmem ⊢
      simp [getTrace] at hmem
      obtain ⟨hb, hsh⟩ := hmem
      subst hb; subst hsh
      refine ⟨[.listunspentCall, .createpsbtCall (firstCoinArgs u),
        .walletprocesspsbtCall (node.createpsbt (firstCoinArgs u)) false .ALL,
        .createPSBTCall ASSET_BTC s, .readPSBTCall f.asset f.id],
        [.walletprocesspsbtCall f.psbt true .ALL, .updatePSBTCall ASSET_BTC f.id sg,
         .readPSBT2Call g.asset g.id, .equalityCheck2 g g], f, ?_, ?_, rfl⟩
      · simp [getTrace]
      · simp
    · rw [htr] at hmem
      simp [getTrace] at hmem
      obtain ⟨h1, h2⟩ := hmem
      subst h1; subst h2
      exact absurd rfl hq

/-- Witness for C2 on the concrete environments: the signing call over
the sponsor's fee-augmented blob sits after the passing first check. -/
theorem C2_sign_only_after_verifier_witness :
    ∃ l1 l2 r, (psbt cNode cFaas).2 = l1 ++ Event.equalityCheck1 r r :: l2 ∧
      Event.walletprocesspsbtCall "fee-blob" true .ALL ∈ l2 ∧ ("fee-blob" : String) = r.psbt :=
  (C2_sign_only_after_verifier cNode cFaas).1 "fee-blob" .ALL (by decide)

/-- C4 (amended): the interactive flow signals success only after a
final re-fetch of the exchange record whose deep-equality check
against the resubmission response passes — the last two trace events
of a successful run are that re-fetch and the passing second check,
over a record the sponsor actually returned for that read; the flow
does not additionally verify that this record's state is
`Broadcast`. -/
theorem C4_completion_after_final_check (node : NodeEnv) (faas : FaasEnv)
    (hok : (psbt node faas).1 = .ok ()) :
    ∃ tr0 g, (psbt node faas).2 =
        tr0 ++ [Event.readPSBT2Call g.asset g.id, Event.equalityCheck2 g g] ∧
      faas.readPSBT g.asset g.id = some g := by
  rcases psbt_spec node faas with ⟨h, htr⟩ | ⟨u, rest, hlu, hwp, htr⟩ |
    ⟨u, rest, s, hlu, hwp, hcr, htr⟩ | ⟨u, rest, s, f, hlu, hwp, hcr, hrd, htr⟩ |
    ⟨u, rest, s, f, r, hlu, hwp, hcr, hrd, hne, htr⟩ |
    ⟨u, rest, s, f, hlu, hwp, hcr, hrd, hwp2, htr⟩ |
    ⟨u, rest, s, f, sg, hlu, hwp, hcr, hrd, hwp2, hup, htr⟩ |
    ⟨u, rest, s, f, sg, g, hlu, hwp, hcr, hrd, hwp2, hup, hrd2, htr⟩ |
    ⟨u, rest, s, f, sg, g, r2, hlu, hwp, hcr, hrd, hwp2, hup, hrd2, hne2, htr⟩ |
    ⟨u, rest, s, f, sg, g, hlu, hwp, hcr, hrd, hwp2, hup, hrd2, htr⟩ <;>
    rw [htr] at hok <;> simp at hok
  refine ⟨getTrace node u false .ALL ++
    [.createPSBTCall ASSET_BTC s, .readPSBTCall f.asset f.id, .equalityCheck1 f f,
     .walletprocesspsbtCall f.psbt true .ALL, .updatePSBTCall ASSET_BTC f.id sg],
    g, ?_, hrd2⟩
  rw [htr]; simp

/-- Witness for C4 on the concrete environments. -/
theorem C4_completion_after_final_check_witness :
    ∃ tr0 g, (psbt cNode cFaas).2 =
        tr0 ++ [Event.readPSBT2Call g.asset g.id, Event.equalityCheck2 g g] ∧
      cFaas.readPSBT g.asset g.id = some g :=
  C4_completion_after_final_check cNode cFaas rfl

/-- Counterexample for C4 as stated: with the concrete sponsor whose
final record `recB` is in state `"Pending"`, the interactive flow
nevertheless completes successfully — the code never confirms a
`Broadcast` state. -/
theorem C4_no_broadcast_state_check :
    (psbt cNode cFaas).1 = .ok () ∧
    Event.equalityCheck2 recB recB ∈ (psbt cNode cFaas).2 ∧
    cFaas.readPSBT recB.asset recB.id = some recB ∧
    recB.state = "Pending" ∧ recB.state ≠ "Broadcast" := by
  refine ⟨rfl, by decide, rfl, rfl, by decide⟩

/-- C5: the Signing Orchestrator's sighash policy per protocol step.
Every signing call of the interactive flow carries sighash `ALL` and
signs the fee-augmented blob of the sponsor's `createPSBT` response
(round 2, post-augmentation); every signing call of the
non-interactive flow carries sighash `ALL|ANYONECANPAY` and signs the
customer's own candidate serialization (round 1, pre-augmentation). -/
theorem C5_sighash_policy (node : NodeEnv) (faas : FaasEnv) :
    (∀ b sh, Event.walletprocesspsbtCall b true sh ∈ (psbt node faas).2 →
      sh = .ALL ∧ ∃ s f, faas.createPSBT ASSET_BTC s = some f ∧ b = f.psbt) ∧
    (∀ b sh, Event.walletprocesspsbtCall b true sh ∈ (psbtni node faas).2 →
      sh = .ALL_ANYONECANPAY ∧
        ∃ u restc, node.listunspent = u :: restc ∧
          b = node.createpsbt (firstCoinArgs u)) := by
  constructor
  · intro b sh hmem
    rcases psbt_spec node faas with ⟨h, htr⟩ | ⟨u, rest, hlu, hwp, htr⟩ |
      ⟨u, rest, s, hlu, hwp, hcr, htr⟩ | ⟨u, rest, s, f, hlu, hwp, hcr, hrd, htr⟩ |
      ⟨u, rest, s, f, r, hlu, hwp, hcr, hrd, hne, htr⟩ |
      ⟨u, rest, s, f, hlu, hwp, hcr, hrd, hwp2, htr⟩ |
      ⟨u, rest, s, f, sg, hlu, hwp, hcr, hrd, hwp2, hup, htr⟩ |
      ⟨u, rest, s, f, sg, g, hlu, hwp, hcr, hrd, hwp2, hup, hrd2, htr⟩ |
      ⟨u, rest, s, f, sg, g, r2, hlu, hwp, hcr, hrd, hwp2, hup, hrd2, hne2, htr⟩ |
      ⟨u, rest, s, f, sg, g, hlu, hwp, hcr, hrd, hwp2, hup, hrd2, htr⟩ <;>
      rw [htr] at hmem <;> simp [getTrace] at hmem <;>
      exact ⟨hmem.2, s, f, hcr, hmem.1⟩
  · intro b sh hmem
    rcases psbtni_spec node faas with ⟨h, htr⟩ | ⟨u, rest, hlu, hwp, htr⟩ |
      ⟨u, rest, s, hlu, hwp, hcr, htr⟩ | ⟨u, rest, s, f, hlu, hwp, hcr, hrd, htr⟩ |
      ⟨u, rest, s, f, r, hlu, hwp, hcr, hrd, hne, htr⟩ |
      ⟨u, rest, s, f, hlu, hwp, hcr, hrd, htr⟩ <;>
      rw [htr] at hmem <;> simp [getTrace] at hmem <;>
      exact ⟨hmem.2, u, rest, hlu, hmem.1⟩

/-- Witness for C5: both signing calls occur on the concrete
environments, with the claimed sighash policies and blobs. -/
theorem C5_sighash_policy_witness :
    (SigHashType.ALL = .ALL ∧
      ∃ s f, cFaas.createPSBT ASSET_BTC s = some f ∧ ("fee-blob" : String) = f.psbt) ∧
    (SigHashType.ALL_ANYONECANPAY = .ALL_ANYONECANPAY ∧
      ∃ u restc, cNode.listunspent = u :: restc ∧
        ("cand" : String) = cNode.createpsbt (firstCoinArgs u)) :=
  ⟨(C5_sighash_policy cNode cFaas).1 "fee-blob" .ALL (by decide),
   (C5_sighash_policy cNode cFaas).2 "cand" .ALL_ANYONECANPAY (by decide)⟩

/-- C9: each equality check of the interactive flow compares a record
re-fetched from the sponsor against the sponsor's own immediately
preceding response (the `createPSBT` response for the first check, the
`updatePSBT` response for the final check) — never against the
customer's original candidate; consequently, for any self-consistent
sponsor whose calls all succeed, the flow succeeds no matter how the
sponsor's records relate to the submitted candidate. -/
theorem C9_checks_mirror_sponsor (node : NodeEnv) (faas : FaasEnv) :
    (∀ q1 q2, Event.equalityCheck1 q1 q2 ∈ (psbt node faas).2 →
      ∃ s, faas.createPSBT ASSET_BTC s = some q2 ∧
        faas.readPSBT q2.asset q2.id = some q1) ∧
    (∀ q1 q2, Event.equalityCheck2 q1 q2 ∈ (psbt node faas).2 →
      ∃ i sg, faas.updatePSBT ASSET_BTC i sg = some q2 ∧
        faas.readPSBT q2.asset q2.id = some q1) ∧
    (selfConsistent faas → node.listunspent ≠ [] →
      (∀ b c t, node.walletprocesspsbt b c t ≠ none) →
      (∀ a b, faas.createPSBT a b ≠ none) →
      (∀ a i b, faas.updatePSBT a i b ≠ none) →
      (psbt node faas).1 = .ok ()) := by
  rcases psbt_spec node faas with ⟨h, htr⟩ | ⟨u, rest, hlu, hwp, htr⟩ |
    ⟨u, rest, s, hlu, hwp, hcr, htr⟩ | ⟨u, rest, s, f, hlu, hwp, hcr, hrd, htr⟩ |
    ⟨u, rest, s, f, r, hlu, hwp, hcr, hrd, hne, htr⟩ |
    ⟨u, rest, s, f, hlu, hwp, hcr, hrd, hwp2, htr⟩ |
    ⟨u, rest, s, f, sg, hlu, hwp, hcr, hrd, hwp2, hup, htr⟩ |
    ⟨u, rest, s, f, sg, g, hlu, hwp, hcr, hrd, hwp2, hup, hrd2, htr⟩ |
    ⟨u, rest, s, f, sg, g, r2, hlu, hwp, hcr, hrd, hwp2, hup, hrd2, hne2, htr⟩ |
    ⟨u, rest, s, f, sg, g, hlu, hwp, hcr, hrd, hwp2, hup, hrd2, htr⟩
  · refine ⟨fun q1 q2 hmem => ?_, fun q1 q2 hmem => ?_, fun _ hne0 _ _ _ => ?_⟩
    · rw [htr] at hmem; simp at hmem
    · rw [htr] at hmem; simp at hmem
    · exact absurd h hne0
  · refine ⟨fun q1 q2 hmem => ?_, fun q1 q2 hmem => ?_, fun _ _ hw _ _ => ?_⟩
    · rw [htr] at hmem; simp [getTrace] at hmem
    · rw [htr] at hmem; simp [getTrace] at hmem
    · exact absurd hwp (hw _ _ _)
  · refine ⟨fun q1 q2 hmem => ?_, fun q1 q2 hmem => ?_, fun _ _ _ hc _ => ?_⟩
    · rw [htr] at hmem; simp [getTrace] at hmem
    · rw [htr] at hmem; simp [getTrace] at hmem
    · exact absurd hcr (hc _ _)
  · refine ⟨fun q1 q2 hmem => ?_, fun q1 q2 hmem => ?_, fun hsc _ _ _ _ => ?_⟩
    · rw [htr] at hmem; simp [getTrace] at hmem
    · rw [htr] at hmem; simp [getTrace] at hmem
    · exact absurd (hsc.1 ASSET_BTC s f hcr) (by simp [hrd])
  · refine ⟨fun q1 q2 hmem => ?_, fun q1 q2 hmem => ?_, fun hsc _ _ _ _ => ?_⟩
    · rw [htr] at hmem; simp [getTrace] at hmem
      obtain ⟨h1, h2⟩ := hmem
      subst h1; subst h2
      exact ⟨s, hcr, hrd⟩
    · rw [htr] at hmem; simp [getTrace] at hmem
    · have := hsc.1 ASSET_BTC s f hcr
      rw [hrd] at this
      simp at this
      exact absurd this hne
  · refine ⟨fun q1 q2 hmem => ?_, fun q1 q2 hmem => ?_, fun _ _ hw _ _ => ?_⟩
    · rw [htr] at hmem; simp [getTrace] at hmem
      obtain ⟨h1, h2⟩ := hmem
      subst h1; subst h2
      exact ⟨s, hcr, hrd⟩
    · rw [htr] at hmem; simp [getTrace] at hmem
    · exact absurd hwp2 (hw _ _ _)
  · refine ⟨fun q1 q2 hmem => ?_, fun q1 q2 hmem => ?_, fun _ _ _ _ hu => ?_⟩
    · rw [htr] at hmem; simp [getTrace] at hmem
      obtain ⟨h1, h2⟩ := hmem
      subst h1; subst h2
      exact ⟨s, hcr, hrd⟩
    · rw [htr] at hmem; simp [getTrace] at hmem
    · exact absurd hup (hu _ _ _)
  · refine ⟨fun q1 q2 hmem => ?_, fun q1 q2 hmem => ?_, fun hsc _ _ _ _ => ?_⟩
    · rw [htr] at hmem; simp [getTrace] at hmem
      obtain ⟨h1, h2⟩ := hmem
      subst h1; subst h2
      exact ⟨s, hcr, hrd⟩
    · rw [htr] at hmem; simp [getTrace] at hmem
    · exact absurd (hsc.2 ASSET_BTC f.id sg g hup) (by simp [hrd2])
  · refine ⟨fun q1 q2 hmem => ?_, fun q1 q2 hmem => ?_, fun hsc _ _ _ _ => ?_⟩
    · rw [htr] at hmem; simp [getTrace] at hmem
      obtain ⟨h1, h2⟩ := hmem
      subst h1; subst h2
      exact ⟨s, hcr, hrd⟩
    · rw [htr] at hmem; simp [getTrace] at hmem
      obtain ⟨h1, h2⟩ := hmem
      subst h1; subst h2
      exact ⟨f.id, sg, hup, hrd2⟩
    · have := hsc.2 ASSET_BTC f.id sg g hup
      rw [hrd2] at this
      simp at this
      exact absurd this hne2
  · refine ⟨fun q1 q2 hmem => ?_, fun q1 q2 hmem => ?_, fun _ _ _ _ _ => ?_⟩
    · rw [htr] at hmem; simp [getTrace] at hmem
      obtain ⟨h1, h2⟩ := hmem
      subst h1; subst h2
      exact ⟨s, hcr, hrd⟩
    · rw [htr] at hmem; simp [getTrace] at hmem
      obtain ⟨h1, h2⟩ := hmem
      subst h1; subst h2
      exact ⟨f.id, sg, hup, hrd2⟩
    · rw [htr]

/-- Witness for C9: the concrete sponsor returns a fee-augmented
record whose blob `"fee-blob"` differs from the submitted candidate
blob `"pcand"`, yet the interactive flow completes successfully — the
checks compare only sponsor data with sponsor data. -/
theorem C9_checks_mirror_sponsor_witness :
    (psbt cNode cFaas).1 = .ok () ∧
    cFaas.createPSBT ASSET_BTC "pcand" = some recA ∧ recA.psbt ≠ "pcand" :=
  ⟨(C9_checks_mirror_sponsor cNode cFaas).2.2
      (by
        constructor
        · intro a b r h
          simp [cFaas] at h
          subst h
          simp [cFaas, recA]
        · intro a i b r h
          simp [cFaas] at h
          subst h
          simp [cFaas, recB])
      (by decide) (fun b c t => by simp [cNode]) (fun a b => by simp [cFaas])
      (fun a i b => by simp [cFaas]),
   rfl, by decide⟩

/-- C10 (amended): within one interactive run, the intermediate
re-fetch and the resubmission address the exchange by the asset and id
of the `createPSBT` response, the blob resubmitted is the wallet's
processing of the sponsor's fee-augmented blob (not the customer's
original candidate), and the final re-fetch addresses the exchange by
the asset and id of the `updatePSBT` response. -/
theorem C10_id_and_blob_provenance (node : NodeEnv) (faas : FaasEnv) :
    (∀ a i, Event.readPSBTCall a i ∈ (psbt node faas).2 →
      ∃ s f, faas.createPSBT ASSET_BTC s = some f ∧ a = f.asset ∧ i = f.id) ∧
    (∀ a i bb, Event.updatePSBTCall a i bb ∈ (psbt node faas).2 →
      ∃ s f, faas.createPSBT ASSET_BTC s = some f ∧ a = ASSET_BTC ∧ i = f.id ∧
        node.walletprocesspsbt f.psbt true .ALL = some bb) ∧
    (∀ a i, Event.readPSBT2Call a i ∈ (psbt node faas).2 →
      ∃ i0 sg g, faas.updatePSBT ASSET_BTC i0 sg = some g ∧ a = g.asset ∧ i = g.id) := by
  rcases psbt_spec node faas with ⟨h, htr⟩ | ⟨u, rest, hlu, hwp, htr⟩ |
    ⟨u, rest, s, hlu, hwp, hcr, htr⟩ | ⟨u, rest, s, f, hlu, hwp, hcr, hrd, htr⟩ |
    ⟨u, rest, s, f, r, hlu, hwp, hcr, hrd, hne, htr⟩ |
    ⟨u, rest, s, f, hlu, hwp, hcr, hrd, hwp2, htr⟩ |
    ⟨u, rest, s, f, sg, hlu, hwp, hcr, hrd, hwp2, hup, htr⟩ |
    ⟨u, rest, s, f, sg, g, hlu, hwp, hcr, hrd, hwp2, hup, hrd2, htr⟩ |
    ⟨u, rest, s, f, sg, g, r2, hlu, hwp, hcr, hrd, hwp2, hup, hrd2, hne2, htr⟩ |
    ⟨u, rest, s, f, sg, g, hlu, hwp, hcr, hrd, hwp2, hup, hrd2, htr⟩ <;>
  refine ⟨fun a i hmem => ?_, fun a i bb hmem => ?_, fun a i hmem => ?_⟩ <;>
    rw [htr] at hmem <;> simp [getTrace] at hmem
  all_goals
    first
      | (obtain ⟨h1, h2⟩ := hmem; subst h1; subst h2; exact ⟨s, f, hcr, rfl, rfl⟩)
      | (obtain ⟨h1, h2, h3⟩ := hmem; subst h1; subst h2; subst h3
         exact ⟨s, f, hcr, rfl, rfl, hwp2⟩)
      | (obtain ⟨h1, h2⟩ := hmem; subst h1; subst h2; exact ⟨f.id, sg, g, hup, rfl, rfl⟩)

/-- Witness for C10 on the concrete environments: the final re-fetch
addresses the record returned by `updatePSBT`. -/
theorem C10_id_and_blob_provenance_witness :
    ∃ i0 sg g, cFaas.updatePSBT ASSET_BTC i0 sg = some g ∧
      ("BTC" : String) = g.asset ∧ ("id2" : String) = g.id :=
  (C10_id_and_blob_provenance cNode cFaas).2.2 "BTC" "id2" (by decide)

/-- Counterexample for C10 as stated: with the concrete sponsor, every
`createPSBT` response carries id `"id1"`, yet the final read — a
sponsor call after the initial submission — addresses id `"id2"`,
because the source uses the `updatePSBT` response's id for it. -/
theorem C10_final_read_uses_update_id :
    cFaas.createPSBT = (fun _ _ => some recA) ∧ recA.id = "id1" ∧
    Event.readPSBT2Call "BTC" "id2" ∈ (psbt cNode cFaas).2 ∧
    ("id2" : String) ≠ "id1" :=
  ⟨rfl, rfl, by decide, by decide⟩

end FaasExample
